import Mathlib

/-!
Verification of the core simulation of `src/max.py`, a catcher game.

The embedding is shallow: the score/miss/tally bookkeeping of the main
loop, the per-frame difficulty functions, the spawner decision, the
player movement update and the bonus rotation update are translated
directly from the source into Lean functions over `Int`/`Nat` state.
Python's floor division `//` and modulo `%` with a positive divisor
coincide with Lean's `Int` `/` (`Int.ediv`) and `%` (`Int.emod`), so the
arithmetic carries over verbatim.  Purely graphical effects (image
selection, blitting, sound playback) have no influence on the state
studied here and are omitted, as are the pygame event and sprite
machinery; where the loop consumes their results (which bonuses missed
or collided in a frame, whether a quit event arrived) those results are
inputs of the frame function.
-/

/- Constants, from the top of `src/max.py` (lines 12-21). -/

def SCREEN_WIDTH : Int := 800

def SCREEN_HEIGHT : Int := 600

def FRAME_RATE : Int := 30

def OBJECTS_MAX : Int := 40

def MISSES_ALLOWED : Int := 30

def SPEED_MIN : Int := 6

def SPEED_MAX : Int := 80

def BUMP_FREQUENCY : Int := FRAME_RATE / 3

def BUMP_HEIGHT : Int := 3

/-- The six bonus types of the `BONUSES` catalog (lines 22-53). -/
inductive BonusName where
  | box
  | present
  | boot
  | pillow
  | soccerball
  | thermos
deriving DecidableEq, Repr

/-- `BONUSES[name]['points']` (lines 22-53). -/
def points : BonusName → Int
  | .box => 100
  | .present => 150
  | .boot => 50
  | .pillow => 100
  | .soccerball => 50
  | .thermos => 100

/-- `BONUSES[name]['speed']` (lines 22-53). -/
def catalogSpeed : BonusName → Int
  | .box => 5
  | .present => 15
  | .boot => 7
  | .pillow => 3
  | .soccerball => 7
  | .thermos => 7

/- Difficulty controller: the two per-frame derived quantities of
`main` (lines 415-418). -/

/-- `misses_allowed = (player.score // 500) + MISSES_ALLOWED` (line 415). -/
def misses_allowed (score : Int) : Int := score / 500 + MISSES_ALLOWED

/-- `objects_max = (player.score // 2000) * 5 + 10`, then capped at
`OBJECTS_MAX` (lines 416-418). -/
def objects_max (score : Int) : Int :=
  let om := score / 2000 * 5 + 10
  if om > OBJECTS_MAX then OBJECTS_MAX else om

/-- The spawner decision of one frame (lines 420-422): if the number of
active bonuses is below `objects_max`, exactly one new bonus is added to
the group.  Only the size of the group matters here. -/
def spawnCount (count : Nat) (score : Int) : Nat :=
  if (count : Int) < objects_max score then count + 1 else count

/-- C4: `misses_allowed(s) = MISSES_ALLOWED + floor(s / 500)`; on
`s ≥ 0` it is monotonically non-decreasing, and its value at 0 is the
base constant. -/
theorem misses_allowed_formula_monotone (s t : Int) :
    misses_allowed s = MISSES_ALLOWED + s / 500 ∧
    (0 ≤ s → s ≤ t → misses_allowed s ≤ misses_allowed t) ∧
    misses_allowed 0 = MISSES_ALLOWED := by
  refine ⟨?_, ?_, ?_⟩
  · simp [misses_allowed, MISSES_ALLOWED]; ring
  · intro h0 hst
    simp only [misses_allowed]
    omega
  · simp [misses_allowed]

theorem misses_allowed_formula_monotone_spot :
    misses_allowed 400 = MISSES_ALLOWED + 400 / 500 ∧
    misses_allowed 400 ≤ misses_allowed 900 ∧
    misses_allowed 0 = MISSES_ALLOWED :=
  ⟨(misses_allowed_formula_monotone 400 900).1,
   (misses_allowed_formula_monotone 400 900).2.1 (by decide) (by decide),
   (misses_allowed_formula_monotone 400 900).2.2⟩

/-- C5: `objects_max(s) = min(OBJECTS_MAX, 10 + 5 * floor(s / 2000))`;
for all scores it is monotonically non-decreasing, bounded above by
`OBJECTS_MAX = 40`, and its value changes only when the score crosses a
multiple of 2000. -/
theorem objects_max_formula_monotone_cap (s t : Int) :
    objects_max s = min OBJECTS_MAX (10 + 5 * (s / 2000)) ∧
    (s ≤ t → objects_max s ≤ objects_max t) ∧
    objects_max s ≤ OBJECTS_MAX ∧
    OBJECTS_MAX = 40 ∧
    (objects_max (s + 1) ≠ objects_max s → (2000 : Int) ∣ (s + 1)) := by
  refine ⟨?_, ?_, ?_, rfl, ?_⟩
  · simp only [objects_max, OBJECTS_MAX, min_def]
    split <;> split <;> omega
  · intro hst
    simp only [objects_max, OBJECTS_MAX]
    split <;> split <;> omega
  · simp only [objects_max, OBJECTS_MAX]
    split <;> omega
  · intro hne
    rw [Int.dvd_iff_emod_eq_zero]
    by_contra hmod
    apply hne
    simp only [objects_max]
    have : (s + 1) / 2000 = s / 2000 := by omega
    rw [this]

theorem objects_max_formula_monotone_cap_spot :
    objects_max 2500 = min OBJECTS_MAX (10 + 5 * (2500 / 2000)) ∧
    objects_max 2500 ≤ objects_max 4100 ∧
    objects_max 2500 ≤ OBJECTS_MAX ∧
    OBJECTS_MAX = 40 ∧
    objects_max (2500 + 1) = objects_max 2500 :=
  ⟨(objects_max_formula_monotone_cap 2500 4100).1,
   (objects_max_formula_monotone_cap 2500 4100).2.1 (by decide),
   (objects_max_formula_monotone_cap 2500 4100).2.2.1,
   (objects_max_formula_monotone_cap 2500 4100).2.2.2.1,
   by
     by_contra hne
     exact absurd ((objects_max_formula_monotone_cap 2500 4100).2.2.2.2 hne)
       (by decide)⟩

/-- C7: in a frame the spawner adds at most one bonus, and it adds one
exactly when the active count is strictly below `objects_max(score)`,
however large the deficit. -/
theorem spawn_at_most_one_iff_below_cap (count : Nat) (score : Int) :
    spawnCount count score ≤ count + 1 ∧
    ((count : Int) < objects_max score ↔ spawnCount count score = count + 1) := by
  constructor
  · simp only [spawnCount]
    split <;> omega
  · constructor
    · intro h
      simp [spawnCount, h]
    · intro h
      by_contra hc
      simp [spawnCount, hc] at h

/-- C10: with floor division, a negative score shrinks the miss budget
strictly below the base (`misses_allowed(-100) = MISSES_ALLOWED - 1`),
and a score at or below -4000 drives `objects_max` to 0 or below, so the
spawner adds no bonus in any frame at such a score. -/
theorem negative_score_shrinks_budgets (s : Int) (c : Nat) :
    (s < 0 → misses_allowed s < MISSES_ALLOWED) ∧
    misses_allowed (-100) = MISSES_ALLOWED - 1 ∧
    (s ≤ -4000 → objects_max s ≤ 0) ∧
    (s ≤ -4000 → spawnCount c s = c) := by
  have hobj : s ≤ -4000 → objects_max s ≤ 0 := by
    intro h
    simp only [objects_max, OBJECTS_MAX]
    split <;> omega
  refine ⟨?_, by simp [misses_allowed, MISSES_ALLOWED], hobj, ?_⟩
  · intro h
    simp only [misses_allowed]
    omega
  · intro h
    have := hobj h
    simp only [spawnCount]
    split
    · omega
    · rfl

theorem negative_score_shrinks_budgets_spot :
    misses_allowed (-4500) < MISSES_ALLOWED ∧
    misses_allowed (-100) = MISSES_ALLOWED - 1 ∧
    objects_max (-4500) ≤ 0 ∧
    spawnCount 3 (-4500) = 3 :=
  ⟨(negative_score_shrinks_budgets (-4500) 3).1 (by decide),
   (negative_score_shrinks_budgets (-4500) 3).2.1,
   (negative_score_shrinks_budgets (-4500) 3).2.2.1 (by decide),
   (negative_score_shrinks_budgets (-4500) 3).2.2.2 (by decide)⟩

/- Player (`Player` class, lines 196-297).  Fields hold exactly the
numeric state that `Player.update` reads or writes; `width`/`height`
come from the loaded sprite image (an external asset) and are therefore
parameters fixed at construction.  `direction` and `emote` only select
which image is drawn, so they are not part of this state. -/

structure PlayerState where
  x_pos : Int
  y_pos : Int
  x_inc : Int
  y_inc : Int
  width : Int
  height : Int
  y_orig : Int
  speed : Int
  score : Int
  bump_count : Int
deriving DecidableEq, Repr

/-- `Player.__init__` / `Player.reset` (lines 199-223, 257-263): the
player spawns centered horizontally, two thirds down the screen, with
speed `SPEED_MIN` (the `Character.__init__` default), zero velocity,
zero score and zero bump counter.  `y_orig` records the spawn height. -/
def mkPlayer (width height : Int) : PlayerState :=
  { x_pos := SCREEN_WIDTH / 2
    y_pos := SCREEN_HEIGHT * 2 / 3
    x_inc := 0
    y_inc := 0
    width := width
    height := height
    y_orig := SCREEN_HEIGHT * 2 / 3
    speed := SPEED_MIN
    score := 0
    bump_count := 0 }

/-- `Player.update` (lines 270-297) followed by the inherited
`Character.update` (lines 187-193).  In source order: clamp `x_pos` to
the screen with a half-width margin, clamp `y_pos` with a half-height
margin, run the bump animation counter, recompute `speed` from the
score (the `SPEED_MAX` branch is commented out in the source; the
effective upper clamp is half the sprite width), and only then let
`Character.update` add the velocity to the position. -/
def playerUpdate (p : PlayerState) : PlayerState :=
  let x1 := if p.x_pos < p.width / 2 then p.width / 2
    else if p.x_pos > SCREEN_WIDTH - p.width / 2 then SCREEN_WIDTH - p.width / 2
    else p.x_pos
  let y1 := if p.y_pos < p.height / 2 then p.height / 2
    else if p.y_pos > SCREEN_HEIGHT - p.height / 2 then SCREEN_HEIGHT - p.height / 2
    else p.y_pos
  let bump2 := if p.bump_count > BUMP_FREQUENCY then 0
    else if p.x_inc ≠ 0 then p.bump_count + 1
    else p.bump_count
  let y2 := if p.bump_count > BUMP_FREQUENCY then y1 + BUMP_HEIGHT
    else if p.x_inc ≠ 0 then p.y_orig
    else y1
  let s1 := p.score / 1000
  let s2 := if s1 < SPEED_MIN then SPEED_MIN
    else if s1 > p.width / 2 then p.width / 2
    else s1
  { p with
    x_pos := x1 + p.x_inc
    y_pos := y2 + p.y_inc
    bump_count := bump2
    speed := s2 }

/- Bonus (`Bonus` class, lines 300-325).  The constructor draws the
type, the vertical drift, the spawn position and the rotation increment
at random (lines 306-316); the draws are parameters here.  The sprite
size again comes from the image asset. -/

structure BonusState where
  name : BonusName
  x_pos : Int
  y_pos : Int
  x_inc : Int
  y_inc : Int
  width : Int
  height : Int
  rotation : Int
  r_inc : Int
deriving DecidableEq, Repr

/-- `Bonus.__init__` (lines 303-319): speed and points come from the
catalog; `x_inc` stays 0 (set by `Character.__init__` and never
changed); `rotation` starts at 0; the random draws `y_inc0` (vertical
drift, drawn from `[1, speed]`), `x0`, `y0` (spawn position) and `r0`
(rotation increment, drawn from `[-5, 5]`) are taken as arguments. -/
def mkBonus (name : BonusName) (width height y_inc0 x0 y0 r0 : Int) : BonusState :=
  { name := name
    x_pos := x0
    y_pos := y0
    x_inc := 0
    y_inc := y_inc0
    width := width
    height := height
    rotation := 0
    r_inc := r0 }

/-- `Bonus.update` (lines 321-325) followed by `Character.update`
(lines 187-193): advance the rotation by the per-instance increment
modulo 360 (the rotated image is display-only), then add the velocity
to the position. -/
def bonusUpdate (b : BonusState) : BonusState :=
  { b with
    rotation := (b.rotation + b.r_inc) % 360
    x_pos := b.x_pos + b.x_inc
    y_pos := b.y_pos + b.y_inc }

set_option maxRecDepth 8000 in
/-- C3 counterexample: `Player.update` clamps the position it inherited
from the previous frame and only afterwards adds the velocity, so the
position can leave the screen band after an update.  Holding the right
arrow from spawn (`x_inc = speed = SPEED_MIN`, score stays 0) with a
64-pixel-wide sprite, the 63rd update clamps 772 to 768 and then steps
to 774 > SCREEN_WIDTH - width / 2 = 768. -/
theorem player_update_escapes_band :
    (playerUpdate^[63] { mkPlayer 64 64 with x_inc := SPEED_MIN }).x_pos = 774 ∧
    SCREEN_WIDTH - (playerUpdate^[63]
      { mkPlayer 64 64 with x_inc := SPEED_MIN }).width / 2 = 768 ∧
    ¬ (playerUpdate^[63] { mkPlayer 64 64 with x_inc := SPEED_MIN }).x_pos ≤
      SCREEN_WIDTH - (playerUpdate^[63]
        { mkPlayer 64 64 with x_inc := SPEED_MIN }).width / 2 := by
  refine ⟨by decide, by decide, by decide⟩

/-- C3 (amended): the clamp runs before the velocity is applied, so the
position an update hands to the clamp of the next frame — the updated
position minus the velocity — always lies in
`[width / 2, SCREEN_WIDTH - width / 2]`; after the velocity is added the
position can overshoot that band by at most `|x_inc|`. -/
theorem player_clamped_before_velocity (p : PlayerState)
    (hw : p.width ≤ SCREEN_WIDTH) :
    p.width / 2 ≤ (playerUpdate p).x_pos - p.x_inc ∧
    (playerUpdate p).x_pos - p.x_inc ≤ SCREEN_WIDTH - p.width / 2 := by
  have h2 : p.width / 2 ≤ SCREEN_WIDTH - p.width / 2 := by
    simp only [SCREEN_WIDTH] at hw ⊢
    omega
  simp only [playerUpdate]
  split
  · constructor <;> omega
  · split
    · constructor <;> omega
    · constructor <;> omega

theorem player_clamped_before_velocity_spot :
    (64 : Int) / 2 ≤
      (playerUpdate { mkPlayer 64 64 with x_inc := SPEED_MIN }).x_pos - SPEED_MIN ∧
    (playerUpdate { mkPlayer 64 64 with x_inc := SPEED_MIN }).x_pos - SPEED_MIN ≤
      SCREEN_WIDTH - (64 : Int) / 2 :=
  player_clamped_before_velocity { mkPlayer 64 64 with x_inc := SPEED_MIN }
    (by decide)

/-- C6: after an update the player speed is `floor(score / 1000)`
clamped below by `SPEED_MIN` and above by half the sprite width (the
half-width clamp, not `SPEED_MAX`, is the effective upper bound in the
source; the `SPEED_MAX` comparison is commented out).  The clamp keeps
this min/max form whenever `SPEED_MIN` does not exceed the half width,
which holds for any sprite at least 12 pixels wide. -/
theorem player_speed_clamp (p : PlayerState)
    (h : SPEED_MIN ≤ p.width / 2) :
    (playerUpdate p).speed = min (p.width / 2) (max SPEED_MIN (p.score / 1000)) := by
  simp only [playerUpdate, min_def, max_def]
  split <;> split <;> omega

theorem player_speed_clamp_spot :
    (playerUpdate { mkPlayer 64 64 with score := 100000 }).speed =
      min ((64 : Int) / 2) (max SPEED_MIN ((100000 : Int) / 1000)) :=
  player_speed_clamp { mkPlayer 64 64 with score := 100000 } (by decide)

/-- C8: for any spawn draws and any number of updates, a bonus's
rotation stays in `[0, 360)` (it starts at 0 and is reduced modulo 360
each update) and its rotation increment never changes after spawn. -/
theorem bonus_rotation_bounded_inc_constant (name : BonusName)
    (w h y_inc0 x0 y0 r0 : Int) (n : Nat) :
    0 ≤ (bonusUpdate^[n] (mkBonus name w h y_inc0 x0 y0 r0)).rotation ∧
    (bonusUpdate^[n] (mkBonus name w h y_inc0 x0 y0 r0)).rotation < 360 ∧
    (bonusUpdate^[n] (mkBonus name w h y_inc0 x0 y0 r0)).r_inc = r0 := by
  induction n with
  | zero => refine ⟨?_, ?_, ?_⟩ <;> norm_num [mkBonus]
  | succ k ih =>
    rw [Function.iterate_succ_apply']
    refine ⟨?_, ?_, ih.2.2⟩
    · exact Int.emod_nonneg _ (by decide)
    · exact Int.emod_lt_of_pos _ (by decide)

/- Session bookkeeping of the main loop (`main`, lines 397-455).  The
loop owns a `game_over` flag and the player's score, total miss
counter and per-type hit/miss tallies (`player.bonuses`).  Which
bonuses fell past the bottom edge (line 425-426) and which collided
with the player (lines 442-443) depends on sprite geometry that pygame
resolves; a frame therefore takes the resolved lists as inputs, along
with the quit flag returned by `player.get_input()` (line 413). -/

structure Session where
  score : Int
  misses : Nat
  hitTally : BonusName → Nat
  missTally : BonusName → Nat
  sad : Bool
  gameOver : Bool

/-- Session start: `Player.__init__` zeroes the score, the miss counter
and every tally (lines 216-223); `game_over = False` (line 409); the
sad emote is not set. -/
def initSession : Session :=
  { score := 0
    misses := 0
    hitTally := fun _ => 0
    missTally := fun _ => 0
    sad := false
    gameOver := false }

/-- One missed bonus (loop body of lines 427-432): subtract its points,
bump its type's miss tally and the total miss counter. -/
def missOne (s : Session) (n : BonusName) : Session :=
  { s with
    score := s.score - points n
    missTally := Function.update s.missTally n (s.missTally n + 1)
    misses := s.misses + 1 }

/-- One caught bonus (loop body of lines 444-447): add its points and
bump its type's hit tally. -/
def hitOne (s : Session) (n : BonusName) : Session :=
  { s with
    score := s.score + points n
    hitTally := Function.update s.hitTally n (s.hitTally n + 1) }

/-- One iteration of the main loop (lines 411-451) restricted to the
session bookkeeping, in source order: `game_over` is overwritten by the
input's quit flag (line 413); `misses_allowed` is computed from the
score at the top of the frame (line 415); the miss pass runs (lines
425-432); the loss check compares the updated miss counter against the
precomputed budget and, on breach, sets `game_over` and the sad emote
(lines 435-437, `player.lose()`); the hit pass still runs afterwards
(lines 442-447) before the loop condition is re-examined. -/
def frame (s : Session) (quit : Bool) (missed hits : List BonusName) : Session :=
  let allowed := misses_allowed s.score
  let s0 := { s with gameOver := quit }
  let s1 := missed.foldl missOne s0
  let s2 := if (s1.misses : Int) ≥ allowed
    then { s1 with gameOver := true, sad := true }
    else s1
  hits.foldl hitOne s2

/-- The sessions the main loop can actually produce: the initial
session, and any frame step from a reachable session. -/
inductive Reachable : Session → Prop where
  | init : Reachable initSession
  | step (s : Session) (quit : Bool) (missed hits : List BonusName) :
      Reachable s → Reachable (frame s quit missed hits)

/-- The six catalog types, in catalog order. -/
def catalogNames : List BonusName :=
  [.box, .present, .boot, .pillow, .soccerball, .thermos]

/-- The score a hit/miss tally pair accounts for:
`sum over types t of points(t) * (hits(t) - misses(t))`. -/
def tallyScore (hit miss : BonusName → Nat) : Int :=
  (catalogNames.map (fun t => points t * ((hit t : Int) - (miss t : Int)))).sum

/-- The total miss count a miss tally accounts for. -/
def tallyMisses (miss : BonusName → Nat) : Nat :=
  (catalogNames.map miss).sum

/-- The accounting relation the loop maintains: the score equals the
points accounted by the tallies and the miss counter equals the total
of the miss tallies. -/
def accounted (s : Session) : Prop :=
  s.score = tallyScore s.hitTally s.missTally ∧
  s.misses = tallyMisses s.missTally

lemma tallyScore_miss_update (hit miss : BonusName → Nat) (n : BonusName) :
    tallyScore hit (Function.update miss n (miss n + 1)) =
      tallyScore hit miss - points n := by
  cases n <;>
    simp [tallyScore, catalogNames, Function.update, points] <;>
    ring

lemma tallyScore_hit_update (hit miss : BonusName → Nat) (n : BonusName) :
    tallyScore (Function.update hit n (hit n + 1)) miss =
      tallyScore hit miss + points n := by
  cases n <;>
    simp [tallyScore, catalogNames, Function.update, points] <;>
    ring

lemma tallyMisses_update (miss : BonusName → Nat) (n : BonusName) :
    tallyMisses (Function.update miss n (miss n + 1)) = tallyMisses miss + 1 := by
  cases n <;>
    simp [tallyMisses, catalogNames, Function.update] <;>
    omega

lemma accounted_missOne (s : Session) (n : BonusName) (h : accounted s) :
    accounted (missOne s n) := by
  obtain ⟨h1, h2⟩ := h
  constructor
  · simp only [missOne, tallyScore_miss_update]
    omega
  · simp only [missOne, tallyMisses_update]
    omega

lemma accounted_hitOne (s : Session) (n : BonusName) (h : accounted s) :
    accounted (hitOne s n) := by
  obtain ⟨h1, h2⟩ := h
  constructor
  · simp only [hitOne, tallyScore_hit_update]
    omega
  · simpa [hitOne] using h2

lemma accounted_foldl_missOne (l : List BonusName) (s : Session)
    (h : accounted s) : accounted (l.foldl missOne s) := by
  induction l generalizing s with
  | nil => simpa using h
  | cons a l ih =>
    simpa using ih (missOne s a) (accounted_missOne s a h)

lemma accounted_foldl_hitOne (l : List BonusName) (s : Session)
    (h : accounted s) : accounted (l.foldl hitOne s) := by
  induction l generalizing s with
  | nil => simpa using h
  | cons a l ih =>
    simpa using ih (hitOne s a) (accounted_hitOne s a h)

lemma accounted_frame (s : Session) (quit : Bool)
    (missed hits : List BonusName) (h : accounted s) :
    accounted (frame s quit missed hits) := by
  apply accounted_foldl_hitOne
  have h0 : accounted { s with gameOver := quit } := h
  have h1 := accounted_foldl_missOne missed _ h0
  split
  · exact h1
  · exact h1

/-- C9: at every frame boundary of the main loop the score equals
`sum over types t of points(t) * (hits(t) - misses(t))` and the miss
counter equals the total of the per-type miss tallies; the relation
holds at session start and every miss pass and hit pass preserves it. -/
theorem session_score_accounting (s : Session) (hr : Reachable s) :
    s.score = tallyScore s.hitTally s.missTally ∧
    s.misses = tallyMisses s.missTally := by
  induction hr with
  | init =>
    constructor
    · simp [initSession, tallyScore, catalogNames]
    · simp [initSession, tallyMisses, catalogNames]
  | step s quit missed hits _ ih =>
    exact accounted_frame s quit missed hits ih

theorem session_score_accounting_spot :
    (frame initSession false [BonusName.boot] [BonusName.box]).score =
      tallyScore (frame initSession false [BonusName.boot] [BonusName.box]).hitTally
        (frame initSession false [BonusName.boot] [BonusName.box]).missTally ∧
    (frame initSession false [BonusName.boot] [BonusName.box]).misses =
      tallyMisses (frame initSession false [BonusName.boot] [BonusName.box]).missTally :=
  session_score_accounting _
    (Reachable.step initSession false [BonusName.boot] [BonusName.box] Reachable.init)

/-- C1: entering a frame with `misses = misses_allowed(score) - 1`, if
one miss and one hit resolve in that frame then the miss pushes the
counter to the budget computed at the top of the frame, the loss check
fires (`game_over` set, sad emote), and the hit pass afterwards still
adds the caught bonus's points and bumps its hit tally before the loop
exits. -/
theorem loss_frame_still_applies_hit (s : Session) (quit : Bool)
    (n m : BonusName)
    (h : (s.misses : Int) = misses_allowed s.score - 1) :
    (frame s quit [n] [m]).gameOver = true ∧
    (frame s quit [n] [m]).sad = true ∧
    (frame s quit [n] [m]).score = s.score - points n + points m ∧
    (frame s quit [n] [m]).hitTally m = s.hitTally m + 1 ∧
    (frame s quit [n] [m]).missTally n = s.missTally n + 1 ∧
    (frame s quit [n] [m]).misses = s.misses + 1 := by
  have hc : misses_allowed s.score ≤ (s.misses : Int) + 1 := by omega
  simp [frame, missOne, hitOne, hc, Function.update_same]

theorem loss_frame_still_applies_hit_spot :
    (frame { initSession with misses := 29 } false
        [BonusName.boot] [BonusName.box]).gameOver = true ∧
    (frame { initSession with misses := 29 } false
        [BonusName.boot] [BonusName.box]).sad = true ∧
    (frame { initSession with misses := 29 } false
        [BonusName.boot] [BonusName.box]).score =
      ({ initSession with misses := 29 } : Session).score -
        points BonusName.boot + points BonusName.box ∧
    (frame { initSession with misses := 29 } false
        [BonusName.boot] [BonusName.box]).hitTally BonusName.box =
      ({ initSession with misses := 29 } : Session).hitTally BonusName.box + 1 ∧
    (frame { initSession with misses := 29 } false
        [BonusName.boot] [BonusName.box]).missTally BonusName.boot =
      ({ initSession with misses := 29 } : Session).missTally BonusName.boot + 1 ∧
    (frame { initSession with misses := 29 } false
        [BonusName.boot] [BonusName.box]).misses =
      ({ initSession with misses := 29 } : Session).misses + 1 :=
  loss_frame_still_applies_hit { initSession with misses := 29 } false
    BonusName.boot BonusName.box (by decide)

/-- A run of frames in which exactly one 50-point boot is missed per
frame, nothing is caught and no quit event arrives. -/
def runBoots : Nat → Session
  | 0 => initSession
  | k + 1 => frame (runBoots k) false [BonusName.boot] []

set_option maxRecDepth 40000 in
/-- C2 counterexample: with one 50-point miss per frame from a fresh
session, the session is already in game over on the 27th miss — not the
31st — and `misses_allowed` has dropped to 27 while the score is
negative: floor division pulls `score // 500` below 0, so the budget
does not stay at `MISSES_ALLOWED = 30`. -/
theorem gameover_before_31st_miss :
    (runBoots 26).gameOver = false ∧
    (runBoots 27).gameOver = true ∧
    (runBoots 27).misses = 27 ∧
    (runBoots 26).score = -1300 ∧
    misses_allowed (runBoots 26).score = 27 := by
  refine ⟨by decide, by decide, by decide, by decide, by decide⟩

set_option maxRecDepth 40000 in
/-- C2 (amended): starting from score 0 and 0 misses, a run of
consecutive 50-point misses with no hits reaches game over exactly on
the 27th miss — before the 31st — with final score
`-(27 * 50) = -(sum of the missed point values)`, because the budget is
`misses_allowed(score) = score // 500 + 30`, which falls below 30 once
the score is at or below -500. -/
theorem gameover_on_27th_boot_miss :
    (∀ k : Fin 27, (runBoots k.val).gameOver = false) ∧
    (runBoots 27).gameOver = true ∧
    (runBoots 27).misses = 27 ∧
    (runBoots 27).score = -(27 * 50) ∧
    misses_allowed (runBoots 26).score < MISSES_ALLOWED := by
  refine ⟨by decide, by decide, by decide, by decide, by decide⟩
